import Mathlib

set_option maxRecDepth 8192

/-!
Verification of the storyboard generation core: data model, single-shot
merge, prompt assembly, response parsing and the attached response schemas,
embedded from `src/types.ts` (types and App component) and
`src/services/geminiService.ts`.
-/

/-- BilingualText models the inline `\x7b en: string; cn: string \x7d` shape used
for `scenePrompt`, shot descriptions and transition prompts in `types.ts`. -/
structure BilingualText where
  en : String
  cn : String
  deriving DecidableEq, Repr

/-- Shot models one element of `StoryboardResult.shots` in `types.ts`. -/
structure Shot where
  id : Int
  description : BilingualText
  deriving DecidableEq, Repr

/-- TransitionResult models the `TransitionResult` interface in `types.ts`. -/
structure TransitionResult where
  fromShot : Int
  toShot : Int
  prompt : BilingualText
  deriving DecidableEq, Repr

/-- StoryboardResult models the `StoryboardResult` interface in `types.ts`. -/
structure StoryboardResult where
  scenePrompt : BilingualText
  shots : List Shot
  transitions : List TransitionResult
  deriving DecidableEq, Repr

/-- jsArrayGet models JavaScript array element access `newShots[index]` for an
integer index: a negative or past-the-end index yields `undefined` (here
`none`); an in-range index yields the element (always a truthy object). -/
def jsArrayGet (shots : List Shot) (index : Int) : Option Shot :=
  if index < 0 then none else shots[index.toNat]?

/-- mergeShotDescription models the `setResult` state updater inside
`handleSingleShotRegenerate` in the App component (`src/types.ts`):
it copies the shots array, and only when `newShots[index]` is truthy replaces
that entry with a spread copy whose `description` is `newDescription`;
`scenePrompt` and `transitions` are carried over by the object spread. -/
def mergeShotDescription (prev : StoryboardResult) (index : Int)
    (newDescription : BilingualText) : StoryboardResult :=
  let newShots := prev.shots
  match jsArrayGet newShots index with
  | some s =>
    { prev with shots := newShots.set index.toNat { s with description := newDescription } }
  | none => { prev with shots := newShots }

/-- exBT is a concrete bilingual description used by witnesses. -/
def exBT : BilingualText := { en := "e", cn := "c" }

/-- exR is a concrete two-shot StoryboardResult used by witnesses. -/
def exR : StoryboardResult :=
  { scenePrompt := { en := "scene-en", cn := "scene-cn" }
  , shots :=
      [ { id := 1, description := { en := "s1e", cn := "s1c" } }
      , { id := 2, description := { en := "s2e", cn := "s2c" } } ]
  , transitions := [ { fromShot := 1, toShot := 2, prompt := { en := "t1e", cn := "t1c" } } ] }

/-- Lang models the union type of the App language state (en or cn). -/
inductive Lang where
  | en : Lang
  | cn : Lang
  deriving DecidableEq, Repr

/-- padStart2 models `String(n).padStart(2, "0")`: left-pad with zeros up to
length 2, longer inputs are returned unchanged. -/
def padStart2 (s : String) : String :=
  if s.length < 2 then String.mk (List.replicate (2 - s.length) '0') ++ s else s

/-- getFinalPrompt models `getFinalPrompt` in the App component
(`src/types.ts`): a missing result renders as the empty string; otherwise the
language-dependent grid sentence around the selected scene description is
emitted, then `forEach` appends one line per shot using the zero-based index. -/
def getFinalPrompt (result : Option StoryboardResult) (language : Lang) : String :=
  match result with
  | none => ""
  | some r =>
    let isCN : Bool := language == Lang.cn
    let scene := if isCN then r.scenePrompt.cn else r.scenePrompt.en
    let base :=
      if isCN then
        "根据[" ++ scene ++ "]，生成一张具有凝聚力的[3x3]网格图像，包含在同一环境中的[9]个不同摄像机镜头，严格保持人物/物体、服装和光线的一致性，8K分辨率，16:9 画幅，\n"
      else
        "Based on [" ++ scene ++ "], generate a cohesive [3x3] grid image featuring [9] different camera shots in the same environment, strictly maintaining consistency in character/object, clothing, and lighting, 8K resolution, 16:9 aspect ratio,\n"
    r.shots.enum.foldl
      (fun acc p =>
        acc ++ (if isCN then "镜头" else "Shot") ++ " " ++ padStart2 (toString (p.1 + 1)) ++ ": " ++
          (if isCN then p.2.description.cn else p.2.description.en) ++ "\n")
      base

/-- introSpec follows the spec wording of the introductory sentence as
amended: a per-language fixed grid sentence around the selected scene text,
hardcoded to the 3x3 grid of 9 shots independently of the result. -/
def introSpec (language : Lang) (scene : String) : String :=
  match language with
  | Lang.cn =>
      "根据[" ++ scene ++ "]，生成一张具有凝聚力的[3x3]网格图像，包含在同一环境中的[9]个不同摄像机镜头，严格保持人物/物体、服装和光线的一致性，8K分辨率，16:9 画幅，\n"
  | Lang.en =>
      "Based on [" ++ scene ++ "], generate a cohesive [3x3] grid image featuring [9] different camera shots in the same environment, strictly maintaining consistency in character/object, clothing, and lighting, 8K resolution, 16:9 aspect ratio,\n"

/-- shotLineSpec follows the spec wording of a shot line: the language's shot
label, a space, the 2-digit zero-padded 1-based index, a colon and a space,
the shot's description in the selected language, and a line break. -/
def shotLineSpec (language : Lang) (idx : Nat) (s : Shot) : String :=
  (match language with | Lang.cn => "镜头" | Lang.en => "Shot") ++ " " ++
    (padStart2 (toString (idx + 1)) ++ (": " ++
      ((match language with | Lang.cn => s.description.cn | Lang.en => s.description.en) ++ "\n")))

/-- shotLinesSpec renders one line per shot, in shot order, numbering from
`idx`. -/
def shotLinesSpec (language : Lang) (idx : Nat) : List Shot → String
  | [] => ""
  | s :: rest => shotLineSpec language idx s ++ shotLinesSpec language (idx + 1) rest

/-- exR4 is a concrete StoryboardResult with four shots (the 2x2 layout size)
and three transitions, used to exercise the prompt assembler. -/
def exR4 : StoryboardResult :=
  { scenePrompt := { en := "S", cn := "SC" }
  , shots :=
      [ { id := 1, description := { en := "a", cn := "pa" } }
      , { id := 2, description := { en := "b", cn := "pb" } }
      , { id := 3, description := { en := "c", cn := "pc" } }
      , { id := 4, description := { en := "d", cn := "pd" } } ]
  , transitions :=
      [ { fromShot := 1, toShot := 2, prompt := { en := "t1", cn := "u1" } }
      , { fromShot := 2, toShot := 3, prompt := { en := "t2", cn := "u2" } }
      , { fromShot := 3, toShot := 4, prompt := { en := "t3", cn := "u3" } } ] }

/-- Json models the structured values produced by `JSON.parse`. Numeric
literals are modelled as integers, which covers every number appearing in the
service payloads (ids and shot numbers). -/
inductive Json where
  | null : Json
  | bool : Bool → Json
  | num : Int → Json
  | str : String → Json
  | arr : List Json → Json
  | obj : List (String × Json) → Json

/-- skipWs drops leading JSON whitespace. -/
def skipWs : List Char → List Char
  | [] => []
  | c :: cs => if c = ' ' || c = '\n' || c = '\t' || c = '\r' then skipWs cs else c :: cs

/-- isDigitChar recognizes a decimal digit. -/
def isDigitChar (c : Char) : Bool := '0' ≤ c && c ≤ '9'

/-- takeDigits splits off a maximal run of decimal digits. -/
def takeDigits : List Char → (List Char × List Char)
  | [] => ([], [])
  | c :: cs =>
    if isDigitChar c then
      let p := takeDigits cs
      (c :: p.1, p.2)
    else ([], c :: cs)

/-- digitsToNat reads a digit run as a natural number. -/
def digitsToNat (ds : List Char) : Nat :=
  ds.foldl (fun acc c => acc * 10 + (c.toNat - '0'.toNat)) 0

/-- decodeEscape maps a JSON string escape character to the character it
denotes; unsupported escapes are rejected. -/
def decodeEscape (e : Char) : Option Char :=
  if e = '"' then some '"'
  else if e = '\\' then some '\\'
  else if e = '/' then some '/'
  else if e = 'n' then some '\n'
  else if e = 't' then some '\t'
  else if e = 'r' then some '\r'
  else none

/-- parseStringChars consumes the remainder of a JSON string literal after the
opening quote, returning its characters and the input past the closing
quote. -/
def parseStringChars : List Char → Option (List Char × List Char)
  | [] => none
  | c :: cs =>
    if c = '"' then some ([], cs)
    else if c = '\\' then
      match cs with
      | [] => none
      | e :: cs' =>
        (decodeEscape e).bind fun d =>
          (parseStringChars cs').map fun p => (d :: p.1, p.2)
    else (parseStringChars cs).map fun p => (c :: p.1, p.2)

mutual

/-- parseValue parses one JSON value; the fuel bounds the recursion depth and
is chosen large enough for the whole input at the top-level entry. -/
def parseValue : Nat → List Char → Option (Json × List Char)
  | 0, _ => none
  | fuel + 1, cs =>
    match skipWs cs with
    | [] => none
    | c :: rest =>
      if c = '"' then
        (parseStringChars rest).map fun p => (Json.str (String.mk p.1), p.2)
      else if c = '\x7b' then parseObjBody fuel rest
      else if c = '[' then parseArrBody fuel rest
      else if c = 't' then
        match rest with
        | 'r' :: 'u' :: 'e' :: r => some (Json.bool true, r)
        | _ => none
      else if c = 'f' then
        match rest with
        | 'a' :: 'l' :: 's' :: 'e' :: r => some (Json.bool false, r)
        | _ => none
      else if c = 'n' then
        match rest with
        | 'u' :: 'l' :: 'l' :: r => some (Json.null, r)
        | _ => none
      else if c = '-' then
        match takeDigits rest with
        | ([], _) => none
        | (ds, r) => some (Json.num (-(Int.ofNat (digitsToNat ds))), r)
      else if isDigitChar c then
        match takeDigits (c :: rest) with
        | (ds, r) => some (Json.num (Int.ofNat (digitsToNat ds)), r)
      else none

/-- parseObjBody parses the inside of a JSON object after the opening brace. -/
def parseObjBody : Nat → List Char → Option (Json × List Char)
  | 0, _ => none
  | fuel + 1, cs =>
    match skipWs cs with
    | '\x7d' :: rest => some (Json.obj [], rest)
    | other => (parseMembers fuel other).map fun p => (Json.obj p.1, p.2)

/-- parseMembers parses a non-empty member list of a JSON object, consuming
the closing brace. -/
def parseMembers : Nat → List Char → Option (List (String × Json) × List Char)
  | 0, _ => none
  | fuel + 1, cs =>
    match skipWs cs with
    | '"' :: rest =>
      match parseStringChars rest with
      | none => none
      | some (key, r1) =>
        match skipWs r1 with
        | ':' :: r2 =>
          match parseValue fuel r2 with
          | none => none
          | some (v, r3) =>
            match skipWs r3 with
            | ',' :: r4 =>
              (parseMembers fuel r4).map fun p => ((String.mk key, v) :: p.1, p.2)
            | '\x7d' :: r4 => some ([(String.mk key, v)], r4)
            | _ => none
        | _ => none
    | _ => none

/-- parseArrBody parses the inside of a JSON array after the opening bracket. -/
def parseArrBody : Nat → List Char → Option (Json × List Char)
  | 0, _ => none
  | fuel + 1, cs =>
    match skipWs cs with
    | ']' :: rest => some (Json.arr [], rest)
    | other => (parseElems fuel other).map fun p => (Json.arr p.1, p.2)

/-- parseElems parses a non-empty element list of a JSON array, consuming the
closing bracket. -/
def parseElems : Nat → List Char → Option (List Json × List Char)
  | 0, _ => none
  | fuel + 1, cs =>
    match parseValue fuel cs with
    | none => none
    | some (v, r1) =>
      match skipWs r1 with
      | ',' :: r2 => (parseElems fuel r2).map fun p => (v :: p.1, p.2)
      | ']' :: r2 => some ([v], r2)
      | _ => none

end

/-- jsonParse models `JSON.parse`: it decodes the text as a single JSON value
followed only by whitespace and otherwise raises a syntax error, which the
service surfaces to its caller. -/
def jsonParse (s : String) : Except String Json :=
  match parseValue (3 * s.length + 4) s.toList with
  | some p => if skipWs p.2 = [] then Except.ok p.1 else Except.error "Unexpected token"
  | none => Except.error "Unexpected token"

/-- jsTextOrEmptyObj models the expression `response.text || "\x7b\x7d"`: a missing
or empty (falsy) text is replaced by the literal empty-object text. -/
def jsTextOrEmptyObj : Option String → String
  | none => "\x7b\x7d"
  | some s => if s = "" then "\x7b\x7d" else s

/-- parseFull models the result decoding in `analyzeAndGenerate`
(`src/services/geminiService.ts`): `JSON.parse(response.text || "\x7b\x7d")`,
whose failure is rethrown to the caller by the surrounding catch block. -/
def parseFull (text : Option String) : Except String Json :=
  jsonParse (jsTextOrEmptyObj text)

/-- parseShot models the result decoding in `regenerateShot`
(`src/services/geminiService.ts`): the same `JSON.parse(response.text || "\x7b\x7d")`
with failures rethrown. -/
def parseShot (text : Option String) : Except String Json :=
  jsonParse (jsTextOrEmptyObj text)

/-- ShotSize models the `ShotSize` enum of `types.ts`; `shotSizeValue` gives
each variant's string value. -/
inductive ShotSize where
  | extremeWide | wide | full | medium | closeUp | extremeCloseUp
  | lowAngle | highAngle | overTheShoulder | pointOfView | birdEye
  deriving DecidableEq, Repr

/-- shotSizeValue gives the string value of each `ShotSize` enum member. -/
def shotSizeValue : ShotSize → String
  | ShotSize.extremeWide => "Extreme Wide Shot"
  | ShotSize.wide => "Wide Shot"
  | ShotSize.full => "Full Shot"
  | ShotSize.medium => "Medium Shot"
  | ShotSize.closeUp => "Close-up"
  | ShotSize.extremeCloseUp => "Extreme Close-up"
  | ShotSize.lowAngle => "Low Angle"
  | ShotSize.highAngle => "High Angle"
  | ShotSize.overTheShoulder => "Over the Shoulder"
  | ShotSize.pointOfView => "POV"
  | ShotSize.birdEye => "Bird\x27s Eye View"

/-- GridLayout models the `GridLayout` union type: `threeByThree` is the
source string value "3x3" and `twoByTwo` is "2x2". -/
inductive GridLayout where
  | threeByThree : GridLayout
  | twoByTwo : GridLayout
  deriving DecidableEq, Repr

/-- AspectRatioVal models the `AspectRatio` union; `aspectRatioText` gives
each variant's string value. -/
inductive AspectRatioVal where
  | r16x9 | r9x16 | r4x3 | r3x4 | r1x1
  deriving DecidableEq, Repr

/-- aspectRatioText gives the string value of each aspect-ratio variant. -/
def aspectRatioText : AspectRatioVal → String
  | AspectRatioVal.r16x9 => "16:9"
  | AspectRatioVal.r9x16 => "9:16"
  | AspectRatioVal.r4x3 => "4:3"
  | AspectRatioVal.r3x4 => "3:4"
  | AspectRatioVal.r1x1 => "1:1"

/-- numShots models `const numShots = layout === "3x3" ? 9 : 4` in
`analyzeAndGenerate`. -/
def numShots (layout : GridLayout) : Nat :=
  if layout = GridLayout.threeByThree then 9 else 4

/-- numTransitions models `const numTransitions = numShots - 1` in
`analyzeAndGenerate`. -/
def numTransitions (layout : GridLayout) : Nat := numShots layout - 1

/-- analyzeGeneratePrompt models the instruction template literal of
`analyzeAndGenerate` (`src/services/geminiService.ts`), with
`shotSizesEn = selectedShots.join(", ")` and the four interpolations
(`numShots` twice, `shotSizesEn`, `aspectRatio`, `numTransitions` twice).
Braces of the source text are written as \x7b and \x7d escapes. -/
def analyzeGeneratePrompt (selectedShots : List ShotSize) (layout : GridLayout)
    (ar : AspectRatioVal) : String :=
  let shotSizesEn := String.intercalate ", " (selectedShots.map shotSizeValue)
  "\n      Analyze the provided reference images to extract key visual elements (Subject, Clothing, Environment, Lighting, Mood).\n      \n      Task 1: Generate a professional storyboard prompt with " ++
    toString (numShots layout) ++
    " shots.\n      The requested camera shot sizes are: " ++
    shotSizesEn ++
    ".\n      The target aspect ratio for the final image is " ++
    aspectRatioText ar ++
    ".\n\n      Task 2: Generate " ++
    toString (numTransitions layout) ++
    " specific \"Video Transition Prompts\" to bridge the gap between consecutive shots (Shot 1->2, 2->3, etc.).\n      These prompts will be used in AI video generators (like Luma or Runway) using Shot N as the Start Frame and Shot N+1 as the End Frame.\n      The transition prompts must:\n      - Be highly detailed and cinematic.\n      - Describe the specific camera movement (e.g., \"Slow zoom in,\" \"Pan right,\" \"Rack focus\") needed to get from visual A to visual B.\n      - Describe the subject\x27s action or subtle movements during the transition.\n      - Ensure physics and lighting continuity.\n      - Aim for a smooth, natural flow.\n\n      Return the result in JSON format with both English (EN) and Chinese (CN) translations.\n      The structure must be:\n      \x7b\n        \"scenePrompt\": \x7b\n          \"en\": \"Detailed base description of the scene/subject\",\n          \"cn\": \"...\"\n        \x7d,\n        \"shots\": [\n          \x7b \"id\": 1, \"description\": \x7b \"en\": \"...\", \"cn\": \"...\" \x7d \x7d,\n          ... (total " ++
    toString (numShots layout) ++
    " shots)\n        ],\n        \"transitions\": [\n          \x7b\n            \"fromShot\": 1,\n            \"toShot\": 2,\n            \"prompt\": \x7b\n              \"en\": \"Detailed video generation prompt describing the motion from shot 1 to 2...\",\n              \"cn\": \"描述从镜头1过渡到镜头2的详细视频生成提示词...\"\n            \x7d\n          \x7d,\n          ... (total " ++
    toString (numTransitions layout) ++
    " transitions)\n        ]\n      \x7d\n\n      Important rules:\n      1. Ensure strict visual consistency across all shots.\n      2. Follow the requested shot sizes.\n      3. Transition prompts must be actionable instructions for a video model.\n    "

/-- strEmbedded states that the string `n` occurs as a contiguous substring
of `t`, witnessed by the surrounding pieces. -/
def strEmbedded (n t : String) : Prop := ∃ a b, t = a ++ n ++ b

mutual

/-- Schema models the `responseSchema` values built from `Type.STRING`,
`Type.NUMBER`, `Type.ARRAY` (with `items`) and `Type.OBJECT` (with
`properties` and `required`). -/
inductive Schema where
  | string : Schema
  | number : Schema
  | array : Schema → Schema
  | object : SchemaProps → List String → Schema

/-- SchemaProps models the `properties` map of an object schema as an
association list of property names and their schemas. -/
inductive SchemaProps where
  | nil : SchemaProps
  | cons : String → Schema → SchemaProps → SchemaProps

end

/-- lookupField finds the value of a named property in a parsed object. -/
def lookupField (k : String) : List (String × Json) → Option Json
  | [] => none
  | p :: rest => if p.1 = k then some p.2 else lookupField k rest

/-- lookupPropSchema finds the declared schema of a named property. -/
def lookupPropSchema (k : String) : SchemaProps → Option Schema
  | SchemaProps.nil => none
  | SchemaProps.cons k' s rest => if k' = k then some s else lookupPropSchema k rest

mutual

/-- satisfies decides whether a JSON value conforms to a schema: strings and
numbers match their kinds, every array element must match the item schema,
and an object must carry every `required` property while each declared
property that is present matches its schema. No length constraint exists for
arrays, mirroring the absence of one in the source schemas. -/
def satisfies : Json → Schema → Bool
  | j, Schema.string => match j with | Json.str _ => true | _ => false
  | j, Schema.number => match j with | Json.num _ => true | _ => false
  | j, Schema.array sc =>
    match j with
    | Json.arr items => items.all fun x => satisfies x sc
    | _ => false
  | j, Schema.object props reqd =>
    match j with
    | Json.obj fields =>
        reqd.all (fun k => (lookupField k fields).isSome) && fieldsSat fields props
    | _ => false

/-- fieldsSat checks every declared property that is present in the object
against its declared schema. -/
def fieldsSat (fields : List (String × Json)) : SchemaProps → Bool
  | SchemaProps.nil => true
  | SchemaProps.cons k sc rest =>
    (match lookupField k fields with
     | some v => satisfies v sc
     | none => true) && fieldsSat fields rest

end

/-- jfield reads a named property of a parsed object value. -/
def jfield (j : Json) (k : String) : Option Json :=
  match j with
  | Json.obj fields => lookupField k fields
  | _ => none

/-- isBilingualJson states that a value is an object carrying string
properties `en` and `cn` together. -/
def isBilingualJson (j : Json) : Prop :=
  ∃ e c, jfield j "en" = some (Json.str e) ∧ jfield j "cn" = some (Json.str c)

/-- analyzeResponseSchema models the `responseSchema` attached by
`analyzeAndGenerate`: a required bilingual `scenePrompt`, an array `shots` of
objects with required numeric `id` and bilingual `description`, and an array
`transitions` of objects with required numeric `fromShot` and `toShot` and a
bilingual `prompt`; the schema declares no array length constraint. -/
def analyzeResponseSchema : Schema :=
  Schema.object
    (SchemaProps.cons "scenePrompt"
      (Schema.object
        (SchemaProps.cons "en" Schema.string (SchemaProps.cons "cn" Schema.string SchemaProps.nil))
        ["en", "cn"])
      (SchemaProps.cons "shots"
        (Schema.array (Schema.object
          (SchemaProps.cons "id" Schema.number
            (SchemaProps.cons "description"
              (Schema.object
                (SchemaProps.cons "en" Schema.string
                  (SchemaProps.cons "cn" Schema.string SchemaProps.nil))
                ["en", "cn"])
              SchemaProps.nil))
          ["id", "description"]))
        (SchemaProps.cons "transitions"
          (Schema.array (Schema.object
            (SchemaProps.cons "fromShot" Schema.number
              (SchemaProps.cons "toShot" Schema.number
                (SchemaProps.cons "prompt"
                  (Schema.object
                    (SchemaProps.cons "en" Schema.string
                      (SchemaProps.cons "cn" Schema.string SchemaProps.nil))
                    ["en", "cn"])
                  SchemaProps.nil)))
            ["fromShot", "toShot", "prompt"]))
          SchemaProps.nil)))
    ["scenePrompt", "shots", "transitions"]

/-- regenResponseSchema models the `responseSchema` attached by
`regenerateShot`: an object with required string properties `en` and `cn`. -/
def regenResponseSchema : Schema :=
  Schema.object
    (SchemaProps.cons "en" Schema.string (SchemaProps.cons "cn" Schema.string SchemaProps.nil))
    ["en", "cn"]

/-- c5Json is a schema-conforming payload with zero shots and zero
transitions. -/
def c5Json : Json :=
  Json.obj
    [ ("scenePrompt", Json.obj [("en", Json.str "s"), ("cn", Json.str "t")])
    , ("shots", Json.arr [])
    , ("transitions", Json.arr []) ]

/-- mergeShotDescription at an in-bounds index rewrites exactly that entry. -/
theorem merge_eq_set (R : StoryboardResult) (i : Nat) (D : BilingualText)
    (h : i < R.shots.length) :
    mergeShotDescription R ((i : Int)) D =
      { R with shots := R.shots.set i { R.shots[i] with description := D } } := by
  have h1 : jsArrayGet R.shots ((i : Int)) = some (R.shots[i]) := by
    unfold jsArrayGet
    rw [if_neg (by omega), Int.toNat_ofNat, List.getElem?_eq_getElem h]
  simp only [mergeShotDescription, h1, Int.toNat_ofNat]

/-- C1: for every valid StoryboardResult R, in-bounds zero-based index i and
bilingual description D, the single-shot merge produces a result whose
`shots[i].description` equals D, every other shot is value-equal to the
input's, `scenePrompt` and `transitions` are value-equal to the input's, and
the shots length is preserved. -/
theorem merge_inBounds_frame (R : StoryboardResult) (i : Nat) (D : BilingualText)
    (h : i < R.shots.length) :
    (∃ s, (mergeShotDescription R ((i : Int)) D).shots[i]? = some s ∧ s.description = D) ∧
    (∀ j : Nat, j ≠ i → (mergeShotDescription R ((i : Int)) D).shots[j]? = R.shots[j]?) ∧
    (mergeShotDescription R ((i : Int)) D).scenePrompt = R.scenePrompt ∧
    (mergeShotDescription R ((i : Int)) D).transitions = R.transitions ∧
    (mergeShotDescription R ((i : Int)) D).shots.length = R.shots.length := by
  rw [merge_eq_set R i D h]
  refine ⟨⟨{ R.shots[i] with description := D }, ?_, rfl⟩, ?_, rfl, rfl, ?_⟩
  · exact List.getElem?_set_self (by simpa using h)
  · intro j hj
    exact List.getElem?_set_ne (fun e => hj e.symm)
  · simp

/-- C1 witness: the merge at index 0 of the concrete two-shot result. -/
theorem merge_inBounds_frame_witness :
    (∃ s, (mergeShotDescription exR (((0 : Nat) : Int)) exBT).shots[0]? = some s ∧ s.description = exBT) ∧
    (∀ j : Nat, j ≠ 0 → (mergeShotDescription exR (((0 : Nat) : Int)) exBT).shots[j]? = exR.shots[j]?) ∧
    (mergeShotDescription exR (((0 : Nat) : Int)) exBT).scenePrompt = exR.scenePrompt ∧
    (mergeShotDescription exR (((0 : Nat) : Int)) exBT).transitions = exR.transitions ∧
    (mergeShotDescription exR (((0 : Nat) : Int)) exBT).shots.length = exR.shots.length :=
  merge_inBounds_frame exR 0 exBT (by decide)

/-- C2: for every StoryboardResult R, description D and out-of-bounds index i
(negative or at least the shots length), the single-shot merge returns a
result value-equal to R and raises no exception (it is a total function). -/
theorem merge_outOfBounds_noop (R : StoryboardResult) (D : BilingualText) (i : Int)
    (h : i < 0 ∨ (R.shots.length : Int) ≤ i) :
    mergeShotDescription R i D = R := by
  have hnone : jsArrayGet R.shots i = none := by
    unfold jsArrayGet
    rcases h with h | h
    · rw [if_pos h]
    · rw [if_neg (by omega), List.getElem?_eq_none (by omega)]
  simp only [mergeShotDescription, hnone]

/-- C2 witness: the merge at negative index -1 and past-the-end index 2 of the
concrete two-shot result are both no-ops. -/
theorem merge_outOfBounds_noop_witness :
    mergeShotDescription exR (-1) exBT = exR ∧ mergeShotDescription exR 2 exBT = exR :=
  ⟨merge_outOfBounds_noop exR exBT (-1) (Or.inl (by decide)),
   merge_outOfBounds_noop exR exBT 2 (Or.inr (by decide))⟩

/-- C10: for every StoryboardResult R and in-bounds index i, the merge
preserves the `id` field of the updated shot, because the spread copy replaces
only `description`. -/
theorem merge_preserves_id (R : StoryboardResult) (i : Nat) (D : BilingualText)
    (h : i < R.shots.length) :
    ∃ s t, R.shots[i]? = some s ∧
      (mergeShotDescription R ((i : Int)) D).shots[i]? = some t ∧ t.id = s.id := by
  rw [merge_eq_set R i D h]
  refine ⟨R.shots[i], { R.shots[i] with description := D }, List.getElem?_eq_getElem h, ?_, rfl⟩
  exact List.getElem?_set_self (by simpa using h)

/-- C10 witness: the id of shot 1 of the concrete result survives the merge. -/
theorem merge_preserves_id_witness :
    ∃ s t, exR.shots[1]? = some s ∧
      (mergeShotDescription exR (((1 : Nat) : Int)) exBT).shots[1]? = some t ∧ t.id = s.id :=
  merge_preserves_id exR 1 exBT (by decide)

/-- a foldl that appends one rendered line per enumerated shot equals the
initial string followed by the rendered lines. -/
theorem foldl_shotLines (lang : Lang) (l : List Shot) :
    ∀ (i : Nat) (init : String),
      (List.enumFrom i l).foldl (fun acc p => acc ++ shotLineSpec lang p.1 p.2) init =
        init ++ shotLinesSpec lang i l := by
  induction l with
  | nil => intro i init; simp [shotLinesSpec]
  | cons s rest ih =>
    intro i init
    rw [List.enumFrom_cons, List.foldl_cons, ih (i + 1) (init ++ shotLineSpec lang i s)]
    rw [shotLinesSpec, String.append_assoc]

/-- getFinalPrompt on a present result equals the fixed per-language intro
followed by the rendered shot lines. -/
theorem getFinalPrompt_eq_spec (R : StoryboardResult) (lang : Lang) :
    getFinalPrompt (some R) lang =
      introSpec lang (match lang with | Lang.cn => R.scenePrompt.cn | Lang.en => R.scenePrompt.en) ++
        shotLinesSpec lang 0 R.shots := by
  have hfun : ∀ lg : Lang,
      (fun (acc : String) (p : Nat × Shot) =>
        acc ++ (match lg with | Lang.cn => "镜头" | Lang.en => "Shot") ++ " " ++
          padStart2 (toString (p.1 + 1)) ++ ": " ++
          (match lg with | Lang.cn => p.2.description.cn | Lang.en => p.2.description.en) ++ "\n")
      = fun acc p => acc ++ shotLineSpec lg p.1 p.2 := by
    intro lg
    funext acc p
    simp [shotLineSpec, String.append_assoc]
  cases lang with
  | en =>
    have := hfun Lang.en
    simp only [getFinalPrompt, introSpec, show (Lang.en == Lang.cn) = false from rfl,
      Bool.false_eq_true, if_false, List.enum_eq_enumFrom]
    rw [show (fun (acc : String) (p : Nat × Shot) =>
        acc ++ "Shot" ++ " " ++ padStart2 (toString (p.1 + 1)) ++ ": " ++
          p.2.description.en ++ "\n") = fun acc p => acc ++ shotLineSpec Lang.en p.1 p.2 from this]
    exact foldl_shotLines Lang.en R.shots 0 _
  | cn =>
    have := hfun Lang.cn
    simp only [getFinalPrompt, introSpec, show (Lang.cn == Lang.cn) = true from rfl,
      if_true, List.enum_eq_enumFrom]
    rw [show (fun (acc : String) (p : Nat × Shot) =>
        acc ++ "镜头" ++ " " ++ padStart2 (toString (p.1 + 1)) ++ ": " ++
          p.2.description.cn ++ "\n") = fun acc p => acc ++ shotLineSpec Lang.cn p.1 p.2 from this]
    exact foldl_shotLines Lang.cn R.shots 0 _

/-- C7 counterexample: for a valid four-shot result the emitted introductory
sentence still announces a [3x3] grid of [9] shots, so the introduction is not
parameterized by the result's shot count. -/
theorem assemble_intro_ignores_count :
    exR4.shots.length = 4 ∧
    getFinalPrompt (some exR4) Lang.en =
      "Based on [S], generate a cohesive [3x3] grid image featuring [9] different camera shots in the same environment, strictly maintaining consistency in character/object, clothing, and lighting, 8K resolution, 16:9 aspect ratio,\nShot 01: a\nShot 02: b\nShot 03: c\nShot 04: d\n" := by
  exact ⟨rfl, by decide⟩

/-- C7 amended: the assembler emits a fixed introductory sentence parameterized
by the language only (hardcoded to the 3x3 grid of 9 shots regardless of the
result's shot count), followed by one line per shot in shot order, each line
being the language's shot label, a 2-digit zero-padded 1-based index, a colon,
and the shot's description in the selected language; transitions never
influence the output. -/
theorem assemble_fixed_intro_then_lines (R : StoryboardResult) (lang : Lang) :
    getFinalPrompt (some R) lang =
      introSpec lang (match lang with | Lang.cn => R.scenePrompt.cn | Lang.en => R.scenePrompt.en) ++
        shotLinesSpec lang 0 R.shots ∧
    (∀ ts : List TransitionResult,
      getFinalPrompt (some { R with transitions := ts }) lang = getFinalPrompt (some R) lang) :=
  ⟨getFinalPrompt_eq_spec R lang, fun _ => rfl⟩

/-- C7 amended witness: the characterization applied to the four-shot result. -/
theorem assemble_fixed_intro_then_lines_witness :
    getFinalPrompt (some exR4) Lang.en =
      introSpec Lang.en exR4.scenePrompt.en ++ shotLinesSpec Lang.en 0 exR4.shots ∧
    (∀ ts : List TransitionResult,
      getFinalPrompt (some { exR4 with transitions := ts }) Lang.en =
        getFinalPrompt (some exR4) Lang.en) :=
  assemble_fixed_intro_then_lines exR4 Lang.en

/-- C9: the prompt assembler is deterministic, namely a pure function of the
result and the language: two invocations on value-equal inputs produce
identical output strings. -/
theorem assemble_deterministic (r1 r2 : Option StoryboardResult) (l1 l2 : Lang)
    (h1 : r1 = r2) (h2 : l1 = l2) :
    getFinalPrompt r1 l1 = getFinalPrompt r2 l2 := by
  rw [h1, h2]

/-- C9 witness: two invocations on the concrete result agree. -/
theorem assemble_deterministic_witness :
    getFinalPrompt (some exR) Lang.cn = getFinalPrompt (some exR) Lang.cn :=
  assemble_deterministic (some exR) (some exR) Lang.cn Lang.cn rfl rfl

/-- C4: the response parse surfaces the decode error to the caller for every
non-empty response text that is not well-formed JSON, while a missing or empty
response text is first replaced by the empty-object text and decodes to the
empty object instead of failing, in both `analyzeAndGenerate` and
`regenerateShot`. -/
theorem parse_error_surfaced_empty_degrades :
    (∀ s e, s ≠ "" → jsonParse s = Except.error e →
      parseFull (some s) = Except.error e ∧ parseShot (some s) = Except.error e) ∧
    parseFull none = Except.ok (Json.obj []) ∧
    parseFull (some "") = Except.ok (Json.obj []) ∧
    parseShot none = Except.ok (Json.obj []) ∧
    parseShot (some "") = Except.ok (Json.obj []) := by
  refine ⟨?_, rfl, rfl, rfl, rfl⟩
  intro s e hs he
  have h1 : jsTextOrEmptyObj (some s) = s := by simp [jsTextOrEmptyObj, hs]
  exact ⟨by simp [parseFull, h1, he], by simp [parseShot, h1, he]⟩

/-- C4 witness: the concrete malformed text "x" surfaces a parse error from
both decoders. -/
theorem parse_error_surfaced_empty_degrades_witness :
    parseFull (some "x") = Except.error "Unexpected token" ∧
    parseShot (some "x") = Except.error "Unexpected token" :=
  parse_error_surfaced_empty_degrades.1 "x" "Unexpected token" (by decide) rfl

/-- C3 counterexample: the non-empty unparseable response text "not json"
makes the full-result parse surface an error rather than produce the degraded
empty-object result, refuting the claim for unparseable texts. -/
theorem parse_malformed_not_degraded :
    parseFull (some "not json") = Except.error "Unexpected token" := rfl

/-- C3 amended: for every missing or empty response text the full-result
parse produces the degraded empty-object result without failing; a non-empty
text that is not parseable as well-formed JSON instead surfaces the parse
error to the caller. -/
theorem parse_empty_degrades_malformed_fails :
    parseFull none = Except.ok (Json.obj []) ∧
    parseFull (some "") = Except.ok (Json.obj []) ∧
    (∀ s e, s ≠ "" → jsonParse s = Except.error e → parseFull (some s) = Except.error e) := by
  refine ⟨rfl, rfl, ?_⟩
  intro s e hs he
  have h1 : jsTextOrEmptyObj (some s) = s := by simp [jsTextOrEmptyObj, hs]
  simp [parseFull, h1, he]

/-- C3 amended witness: the concrete malformed text "oops" surfaces the parse
error. -/
theorem parse_empty_degrades_malformed_fails_witness :
    parseFull (some "oops") = Except.error "Unexpected token" :=
  parse_empty_degrades_malformed_fails.2.2 "oops" "Unexpected token" (by decide) rfl

/-- a substring of `x` is a substring of `x ++ y`. -/
theorem strEmbedded_left (n x y : String) (h : strEmbedded n x) :
    strEmbedded n (x ++ y) := by
  obtain ⟨a, b, rfl⟩ := h
  exact ⟨a, b ++ y, by rw [String.append_assoc]⟩

/-- the final piece of an append is a substring of it. -/
theorem strEmbedded_end (n x : String) : strEmbedded n (x ++ n) :=
  ⟨x, "", by rw [String.append_empty]⟩

/-- C6: the derived shot count is 9 for the 3x3 layout and 4 otherwise, the
derived transition count is the shot count minus one, and both counts are
embedded in the composed instruction text. -/
theorem counts_derived_and_embedded :
    numShots GridLayout.threeByThree = 9 ∧
    (∀ l, l ≠ GridLayout.threeByThree → numShots l = 4) ∧
    (∀ l, numTransitions l = numShots l - 1) ∧
    (∀ (selectedShots : List ShotSize) (l : GridLayout) (ar : AspectRatioVal),
      strEmbedded (toString (numShots l)) (analyzeGeneratePrompt selectedShots l ar) ∧
      strEmbedded (toString (numTransitions l)) (analyzeGeneratePrompt selectedShots l ar)) := by
  refine ⟨rfl, ?_, fun _ => rfl, ?_⟩
  · intro l h
    cases l with
    | threeByThree => exact absurd rfl h
    | twoByTwo => rfl
  · intro ss l ar
    constructor
    · simp only [analyzeGeneratePrompt]
      apply strEmbedded_left
      apply strEmbedded_left
      apply strEmbedded_left
      exact strEmbedded_end _ _
    · simp only [analyzeGeneratePrompt]
      apply strEmbedded_left
      exact strEmbedded_end _ _

/-- C6 witness: the counts at both layouts, and the embedding for a concrete
request. -/
theorem counts_derived_and_embedded_witness :
    numShots GridLayout.twoByTwo = 4 ∧
    numTransitions GridLayout.threeByThree = numShots GridLayout.threeByThree - 1 ∧
    strEmbedded (toString (numShots GridLayout.threeByThree))
      (analyzeGeneratePrompt [ShotSize.medium] GridLayout.threeByThree AspectRatioVal.r16x9) :=
  ⟨counts_derived_and_embedded.2.1 GridLayout.twoByTwo (by decide),
   counts_derived_and_embedded.2.2.1 GridLayout.threeByThree,
   (counts_derived_and_embedded.2.2.2 [ShotSize.medium] GridLayout.threeByThree
      AspectRatioVal.r16x9).1⟩

/-- a value satisfying the string schema is a string. -/
theorem satisfies_stringE {j : Json} (h : satisfies j Schema.string = true) :
    ∃ s, j = Json.str s := by
  cases j with
  | str s => exact ⟨s, rfl⟩
  | null => simp [satisfies] at h
  | bool b => simp [satisfies] at h
  | num n => simp [satisfies] at h
  | arr l => simp [satisfies] at h
  | obj f => simp [satisfies] at h

/-- a value satisfying the number schema is a number. -/
theorem satisfies_numberE {j : Json} (h : satisfies j Schema.number = true) :
    ∃ n, j = Json.num n := by
  cases j with
  | num n => exact ⟨n, rfl⟩
  | null => simp [satisfies] at h
  | bool b => simp [satisfies] at h
  | str s => simp [satisfies] at h
  | arr l => simp [satisfies] at h
  | obj f => simp [satisfies] at h

/-- a value satisfying an array schema is an array whose elements satisfy the
item schema. -/
theorem satisfies_arrayE {j : Json} {sc : Schema}
    (h : satisfies j (Schema.array sc) = true) :
    ∃ items, j = Json.arr items ∧ ∀ x ∈ items, satisfies x sc = true := by
  cases j with
  | arr items =>
    refine ⟨items, rfl, ?_⟩
    have h' : items.all (fun x => satisfies x sc) = true := by simpa [satisfies] using h
    intro x hx
    simpa using List.all_eq_true.1 h' x hx
  | null => simp [satisfies] at h
  | bool b => simp [satisfies] at h
  | num n => simp [satisfies] at h
  | str s => simp [satisfies] at h
  | obj f => simp [satisfies] at h

/-- a value satisfying an object schema is an object carrying every required
property, with the declared present properties checked. -/
theorem satisfies_objectE {j : Json} {props : SchemaProps} {reqd : List String}
    (h : satisfies j (Schema.object props reqd) = true) :
    ∃ fields, j = Json.obj fields ∧
      (∀ k ∈ reqd, ∃ v, lookupField k fields = some v) ∧
      fieldsSat fields props = true := by
  cases j with
  | obj fields =>
    have h' : (reqd.all (fun k => (lookupField k fields).isSome) &&
        fieldsSat fields props) = true := by simpa [satisfies] using h
    rw [Bool.and_eq_true] at h'
    refine ⟨fields, rfl, ?_, h'.2⟩
    intro k hk
    have := List.all_eq_true.1 h'.1 k hk
    exact Option.isSome_iff_exists.1 (by simpa using this)
  | null => simp [satisfies] at h
  | bool b => simp [satisfies] at h
  | num n => simp [satisfies] at h
  | str s => simp [satisfies] at h
  | arr l => simp [satisfies] at h

/-- a declared property that is present in a checked object satisfies its
declared schema. -/
theorem fieldsSat_lookup {fields : List (String × Json)} :
    ∀ (props : SchemaProps) (k : String) (sc : Schema) (v : Json),
      fieldsSat fields props = true →
      lookupPropSchema k props = some sc →
      lookupField k fields = some v →
      satisfies v sc = true
  | SchemaProps.nil => by
    intro k sc v _ hp _
    simp [lookupPropSchema] at hp
  | SchemaProps.cons k' sc' rest => by
    intro k sc v h hp hf
    have h' : ((match lookupField k' fields with
        | some w => satisfies w sc'
        | none => true) && fieldsSat fields rest) = true := by
      simpa [fieldsSat] using h
    rw [Bool.and_eq_true] at h'
    by_cases hk : k' = k
    · rw [lookupPropSchema, if_pos hk] at hp
      cases hp
      subst hk
      have h1 := h'.1
      rw [hf] at h1
      exact h1
    · rw [lookupPropSchema, if_neg hk] at hp
      exact fieldsSat_lookup rest k sc v h'.2 hp hf

/-- a value satisfying the bilingual object schema is a complete bilingual
object. -/
theorem satisfies_bilingualE {j : Json}
    (h : satisfies j (Schema.object
      (SchemaProps.cons "en" Schema.string (SchemaProps.cons "cn" Schema.string SchemaProps.nil))
      ["en", "cn"]) = true) :
    isBilingualJson j := by
  obtain ⟨fields, rfl, hreq, hf⟩ := satisfies_objectE h
  obtain ⟨ve, hve⟩ := hreq "en" (by simp)
  obtain ⟨vc, hvc⟩ := hreq "cn" (by simp)
  have he := fieldsSat_lookup _ "en" Schema.string ve hf rfl hve
  have hc := fieldsSat_lookup _ "cn" Schema.string vc hf rfl hvc
  obtain ⟨se, rfl⟩ := satisfies_stringE he
  obtain ⟨tc, rfl⟩ := satisfies_stringE hc
  exact ⟨se, tc, by simpa [jfield] using hve, by simpa [jfield] using hvc⟩

/-- every payload accepted by the full-generation response schema carries a
complete bilingual scene prompt, an array of shot objects each with a numeric
id and a complete bilingual description, and an array of transition objects
each with numeric endpoints and a complete bilingual prompt. -/
theorem analyzeSatisfies_shape {j : Json}
    (h : satisfies j analyzeResponseSchema = true) :
    (∃ sp, jfield j "scenePrompt" = some sp ∧ isBilingualJson sp) ∧
    (∃ shots, jfield j "shots" = some (Json.arr shots) ∧
      ∀ s ∈ shots, (∃ n, jfield s "id" = some (Json.num n)) ∧
        (∃ d, jfield s "description" = some d ∧ isBilingualJson d)) ∧
    (∃ ts, jfield j "transitions" = some (Json.arr ts) ∧
      ∀ t ∈ ts, (∃ a, jfield t "fromShot" = some (Json.num a)) ∧
        (∃ b, jfield t "toShot" = some (Json.num b)) ∧
        (∃ p, jfield t "prompt" = some p ∧ isBilingualJson p)) := by
  rw [analyzeResponseSchema] at h
  obtain ⟨fields, rfl, hreq, hf⟩ := satisfies_objectE h
  obtain ⟨vsp, hvsp⟩ := hreq "scenePrompt" (by simp)
  obtain ⟨vsh, hvsh⟩ := hreq "shots" (by simp)
  obtain ⟨vtr, hvtr⟩ := hreq "transitions" (by simp)
  have hsp := fieldsSat_lookup _ "scenePrompt" _ vsp hf rfl hvsp
  have hsh := fieldsSat_lookup _ "shots" _ vsh hf rfl hvsh
  have htr := fieldsSat_lookup _ "transitions" _ vtr hf rfl hvtr
  refine ⟨⟨vsp, by simpa [jfield] using hvsp, satisfies_bilingualE hsp⟩, ?_, ?_⟩
  · obtain ⟨items, rfl, hitems⟩ := satisfies_arrayE hsh
    refine ⟨items, by simpa [jfield] using hvsh, ?_⟩
    intro s hs
    obtain ⟨f2, rfl, hreq2, hf2⟩ := satisfies_objectE (hitems s hs)
    obtain ⟨vid, hvid⟩ := hreq2 "id" (by simp)
    obtain ⟨vd, hvd⟩ := hreq2 "description" (by simp)
    have hid := fieldsSat_lookup _ "id" _ vid hf2 rfl hvid
    have hd := fieldsSat_lookup _ "description" _ vd hf2 rfl hvd
    obtain ⟨n, rfl⟩ := satisfies_numberE hid
    exact ⟨⟨n, by simpa [jfield] using hvid⟩,
      ⟨vd, by simpa [jfield] using hvd, satisfies_bilingualE hd⟩⟩
  · obtain ⟨items, rfl, hitems⟩ := satisfies_arrayE htr
    refine ⟨items, by simpa [jfield] using hvtr, ?_⟩
    intro t ht
    obtain ⟨f2, rfl, hreq2, hf2⟩ := satisfies_objectE (hitems t ht)
    obtain ⟨va, hva⟩ := hreq2 "fromShot" (by simp)
    obtain ⟨vb, hvb⟩ := hreq2 "toShot" (by simp)
    obtain ⟨vp, hvp⟩ := hreq2 "prompt" (by simp)
    have ha := fieldsSat_lookup _ "fromShot" _ va hf2 rfl hva
    have hb := fieldsSat_lookup _ "toShot" _ vb hf2 rfl hvb
    have hp := fieldsSat_lookup _ "prompt" _ vp hf2 rfl hvp
    obtain ⟨a, rfl⟩ := satisfies_numberE ha
    obtain ⟨b, rfl⟩ := satisfies_numberE hb
    exact ⟨⟨a, by simpa [jfield] using hva⟩, ⟨b, by simpa [jfield] using hvb⟩,
      ⟨vp, by simpa [jfield] using hvp, satisfies_bilingualE hp⟩⟩

/-- C5 counterexample: the attached output-shape contract accepts a payload
whose shots and transitions arrays are empty, although the derived counts are
9 or 4 shots, so the contract does not require exactly numShots shot objects
or exactly numTransitions transition objects. -/
theorem schema_allows_wrong_counts :
    satisfies c5Json analyzeResponseSchema = true ∧
    jfield c5Json "shots" = some (Json.arr []) ∧
    jfield c5Json "transitions" = some (Json.arr []) ∧
    numShots GridLayout.threeByThree = 9 ∧
    numShots GridLayout.twoByTwo = 4 :=
  ⟨by decide, rfl, rfl, rfl, rfl⟩

/-- C5 amended: the attached output-shape contract requires a bilingual scene
field, an array of shot objects each with an id and a bilingual description,
and an array of transition objects each with fromShot, toShot and a bilingual
prompt, with both language fields required together in every bilingual
object; the array lengths are not constrained by the contract (the exact
counts appear only in the instruction text). -/
theorem analyzeSchema_required_shape (j : Json)
    (h : satisfies j analyzeResponseSchema = true) :
    (∃ sp, jfield j "scenePrompt" = some sp ∧ isBilingualJson sp) ∧
    (∃ shots, jfield j "shots" = some (Json.arr shots) ∧
      ∀ s ∈ shots, (∃ n, jfield s "id" = some (Json.num n)) ∧
        (∃ d, jfield s "description" = some d ∧ isBilingualJson d)) ∧
    (∃ ts, jfield j "transitions" = some (Json.arr ts) ∧
      ∀ t ∈ ts, (∃ a, jfield t "fromShot" = some (Json.num a)) ∧
        (∃ b, jfield t "toShot" = some (Json.num b)) ∧
        (∃ p, jfield t "prompt" = some p ∧ isBilingualJson p)) :=
  analyzeSatisfies_shape h

/-- C5 amended witness: the required shape extracted from the concrete
conforming payload. -/
theorem analyzeSchema_required_shape_witness :
    (∃ sp, jfield c5Json "scenePrompt" = some sp ∧ isBilingualJson sp) ∧
    (∃ shots, jfield c5Json "shots" = some (Json.arr shots) ∧
      ∀ s ∈ shots, (∃ n, jfield s "id" = some (Json.num n)) ∧
        (∃ d, jfield s "description" = some d ∧ isBilingualJson d)) ∧
    (∃ ts, jfield c5Json "transitions" = some (Json.arr ts) ∧
      ∀ t ∈ ts, (∃ a, jfield t "fromShot" = some (Json.num a)) ∧
        (∃ b, jfield t "toShot" = some (Json.num b)) ∧
        (∃ p, jfield t "prompt" = some p ∧ isBilingualJson p)) :=
  analyzeSchema_required_shape c5Json (by decide)

/-- C8 counterexample: a successful parse performs no bilingual-shape
validation: the payload carrying only `en` parses successfully into an object
with no `cn` property. -/
theorem parse_accepts_partial_bilingual :
    parseShot (some "\x7b\"en\":\"hi\"\x7d") = Except.ok (Json.obj [("en", Json.str "hi")]) ∧
    jfield (Json.obj [("en", Json.str "hi")]) "cn" = none :=
  ⟨rfl, rfl⟩

/-- C8 amended: bilingual completeness is guaranteed by the attached response
schemas, not by the parse: every payload accepted by the regeneration schema
is a complete bilingual object, and in every payload accepted by the
full-generation schema the scene prompt, all shot descriptions and all
transition prompts are complete bilingual objects. -/
theorem schemas_guarantee_bilingual :
    (∀ j, satisfies j regenResponseSchema = true → isBilingualJson j) ∧
    (∀ j, satisfies j analyzeResponseSchema = true →
      (∀ sp, jfield j "scenePrompt" = some sp → isBilingualJson sp) ∧
      (∀ shots, jfield j "shots" = some (Json.arr shots) →
        ∀ s ∈ shots, ∀ d, jfield s "description" = some d → isBilingualJson d) ∧
      (∀ ts, jfield j "transitions" = some (Json.arr ts) →
        ∀ t ∈ ts, ∀ p, jfield t "prompt" = some p → isBilingualJson p)) := by
  constructor
  · intro j h
    rw [regenResponseSchema] at h
    exact satisfies_bilingualE h
  · intro j h
    obtain ⟨⟨sp, hsp, hspb⟩, ⟨shots, hshots, hshape⟩, ⟨ts, hts, htshape⟩⟩ :=
      analyzeSatisfies_shape h
    refine ⟨?_, ?_, ?_⟩
    · intro sp' hsp'
      rw [hsp] at hsp'
      cases hsp'
      exact hspb
    · intro shots' hshots'
      rw [hshots] at hshots'
      cases hshots'
      intro s hs d hd
      obtain ⟨_, ⟨d', hd', hdb⟩⟩ := hshape s hs
      rw [hd'] at hd
      cases hd
      exact hdb
    · intro ts' hts'
      rw [hts] at hts'
      cases hts'
      intro t ht p hp
      obtain ⟨_, _, ⟨p', hp', hpb⟩⟩ := htshape t ht
      rw [hp'] at hp
      cases hp
      exact hpb

/-- C8 amended witness: the regeneration schema accepts the complete
bilingual object, which is then bilingual. -/
theorem schemas_guarantee_bilingual_witness :
    isBilingualJson (Json.obj [("en", Json.str "a"), ("cn", Json.str "b")]) :=
  schemas_guarantee_bilingual.1 (Json.obj [("en", Json.str "a"), ("cn", Json.str "b")])
    (by decide)
